import Mathlib

/-!
Verification of the patch-selection/composition engine and the
header-spoofing interception contract of `playwright_stealth/stealth.py`.

The Python module is shallowly embedded: the module-level `SCRIPTS`
dictionary, the `StealthConfig` dataclass with its `enabled_scripts`
generator, the `stealth_sync`/`stealth_async` entry points and the
`add_stealth_headers` interception rule become Lean definitions; a
playwright `Page` is modelled by its observable registration state.
-/

namespace PlaywrightStealth

/-! ## Patch Registry (stealth.py lines 10-35) -/

/-- Modelled from the spec: the patch script bodies under `js/` are opaque JS
blobs that are not part of the sources under verification (spec §1 treats
"the individual patch script bodies (opaque JS blobs authored/maintained
separately)" and "file loading of patch sources" as out-of-scope external
collaborators).  Each file's text is modelled as a distinct placeholder
derived from its file name. -/
def from_file (name : String) : String :=
  "/* js/" ++ name ++ " */"

/-- The (patch name, source file name) pairs of the module-level `SCRIPTS`
dictionary literal (stealth.py lines 17-35), in source order. -/
def PATCH_FILES : List (String × String) :=
  [("chrome_csi", "chrome.csi.js"),
   ("chrome_app", "chrome.app.js"),
   ("chrome_runtime", "chrome.runtime.js"),
   ("chrome_load_times", "chrome.load.times.js"),
   ("generate_magic_arrays", "generate.magic.arrays.js"),
   ("iframe_content_window", "iframe.contentWindow.js"),
   ("media_codecs", "media.codecs.js"),
   ("navigator_vendor", "navigator.vendor.js"),
   ("navigator_plugins", "navigator.plugins.js"),
   ("navigator_permissions", "navigator.permissions.js"),
   ("navigator_languages", "navigator.languages.js"),
   ("navigator_user_agent", "navigator.userAgent.js"),
   ("navigator_hardware_concurrency", "navigator.hardwareConcurrency.js"),
   ("outerdimensions", "window.outerdimensions.js"),
   ("utils", "utils.js"),
   ("webdriver", "navigator.webdriver.js"),
   ("webgl_vendor", "webgl.vendor.js")]

/-- `SCRIPTS[key]` (stealth.py lines 17-35): the loaded patch text for `key`. -/
def SCRIPTS (key : String) : String :=
  ((PATCH_FILES.lookup key).map from_file).getD ""

/-- A model of the external patch-source location: file name to contents,
`none` when the file is missing or unreadable (in which case the `open` in
`from_file`, stealth.py line 13, raises). -/
def FileSystem : Type := String → Option String

/-- Evaluation of the `SCRIPTS` dictionary literal (stealth.py lines 17-35)
over an explicit file system.  Python evaluates the dictionary display entry
by entry; the first `from_file` call that raises aborts the whole module
import, so no partial dictionary is ever bound.  The exception is modelled by
`Option`: `none` is the `PatchLoadError` of spec §4.1. -/
def loadScripts (fs : FileSystem) : List (String × String) → Option (List (String × String))
  | [] => some []
  | (key, file) :: rest =>
    match fs file, loadScripts fs rest with
    | some src, some r => some ((key, src) :: r)
    | _, _ => none

/-- Building the whole registry: `SCRIPTS` as bound at module import time. -/
def load_SCRIPTS (fs : FileSystem) : Option (List (String × String)) :=
  loadScripts fs PATCH_FILES

/-! ## Stealth Configuration (stealth.py lines 38-81) -/

/-- `StealthConfig` (stealth.py lines 38-81).  Python `None` defaults become
`Option.none`; the `Tuple[str]` of languages becomes a `List String`. -/
structure StealthConfig where
  webdriver : Bool := true
  webgl_vendor : Bool := true
  chrome_app : Bool := true
  chrome_csi : Bool := true
  chrome_load_times : Bool := true
  chrome_runtime : Bool := true
  iframe_content_window : Bool := true
  media_codecs : Bool := true
  navigator_hardware_concurrency : Int := 4
  navigator_languages : Bool := true
  navigator_permissions : Bool := true
  navigator_plugins : Bool := true
  navigator_user_agent : Bool := true
  navigator_vendor : Bool := true
  outerdimensions : Bool := true
  vendor : String := "Intel Inc."
  renderer : String := "Intel Iris OpenGL Engine"
  nav_vendor : String := "Google Inc."
  nav_user_agent : Option String := none
  nav_platform : Option String := none
  languages : List String := ["en-US", "en"]
  runOnInsecureOrigins : Option Bool := none

/-! ## `json.dumps` of the options bundle (stealth.py lines 85-95)

CPython's `json.dumps` with default arguments: keys in dict insertion order,
separators `", "` and `": "`, `ensure_ascii=True` string escaping. -/

/-- One lower-case hexadecimal digit, as CPython emits in `\uXXXX` escapes. -/
def hexDigit (n : Nat) : Char :=
  if n < 10 then Char.ofNat (48 + n) else Char.ofNat (87 + n)

/-- A `\uXXXX` escape for a code unit `n < 0x10000`. -/
def uEscape (n : Nat) : List Char :=
  ['\\', 'u', hexDigit (n / 4096 % 16), hexDigit (n / 256 % 16),
   hexDigit (n / 16 % 16), hexDigit (n % 16)]

/-- CPython `json.dumps` (`ensure_ascii=True`, the default) encoding of one
character: the two-character short escapes, printable ASCII verbatim,
everything else as `\uXXXX` (with a surrogate pair above the BMP). -/
def jsonEscapeChar (c : Char) : List Char :=
  if c = '\\' then ['\\', '\\']
  else if c = '"' then ['\\', '"']
  else if c = '\n' then ['\\', 'n']
  else if c = '\r' then ['\\', 'r']
  else if c = '\t' then ['\\', 't']
  else if c = '\x08' then ['\\', 'b']
  else if c = '\x0c' then ['\\', 'f']
  else if 0x20 ≤ c.toNat ∧ c.toNat ≤ 0x7e then [c]
  else if c.toNat ≤ 0xffff then uEscape c.toNat
  else uEscape (0xd800 + (c.toNat - 0x10000) / 1024) ++
       uEscape (0xdc00 + (c.toNat - 0x10000) % 1024)

/-- A JSON string literal for `s`. -/
def jsonString (s : String) : String :=
  "\"" ++ String.mk (s.data.map jsonEscapeChar).flatten ++ "\""

/-- JSON for an optional string (Python `None` becomes `null`). -/
def jsonOrNull : Option String → String
  | none => "null"
  | some s => jsonString s

/-- JSON for the tri-state `runOnInsecureOrigins` option. -/
def jsonBoolOrNull : Option Bool → String
  | none => "null"
  | some true => "true"
  | some false => "false"

/-- JSON for `list(self.languages)`. -/
def jsonStringList (l : List String) : String :=
  "[" ++ String.intercalate ", " (l.map jsonString) ++ "]"

/-- The `opts` local of `enabled_scripts` (stealth.py lines 85-95):
`json.dumps` of the seven-key option dict, keys in insertion order.  The
object braces are written `\x7b` and `\x7d`. -/
def opts (c : StealthConfig) : String :=
  "\x7b\"webgl_vendor\": " ++ jsonString c.vendor ++
  ", \"webgl_renderer\": " ++ jsonString c.renderer ++
  ", \"navigator_vendor\": " ++ jsonString c.nav_vendor ++
  ", \"navigator_platform\": " ++ jsonOrNull c.nav_platform ++
  ", \"navigator_user_agent\": " ++ jsonOrNull c.nav_user_agent ++
  ", \"languages\": " ++ jsonStringList c.languages ++
  ", \"runOnInsecureOrigins\": " ++ jsonBoolOrNull c.runOnInsecureOrigins ++
  "\x7d"

/-- `StealthConfig.enabled_scripts` (stealth.py lines 83-129).  The generator
is embedded as the finite list of fragments it yields: `yield x` is a
singleton, `if t: yield x` a conditional singleton, in source order. -/
def StealthConfig.enabled_scripts (c : StealthConfig) : List String :=
  ["const opts = " ++ opts c, SCRIPTS "utils", SCRIPTS "generate_magic_arrays"] ++
  (if c.chrome_app then [SCRIPTS "chrome_app"] else []) ++
  (if c.chrome_csi then [SCRIPTS "chrome_csi"] else []) ++
  (if c.chrome_load_times then [SCRIPTS "chrome_load_times"] else []) ++
  (if c.chrome_runtime then [SCRIPTS "chrome_runtime"] else []) ++
  (if c.iframe_content_window then [SCRIPTS "iframe_content_window"] else []) ++
  (if c.media_codecs then [SCRIPTS "media_codecs"] else []) ++
  (if c.navigator_languages then [SCRIPTS "navigator_languages"] else []) ++
  (if c.navigator_permissions then [SCRIPTS "navigator_permissions"] else []) ++
  (if c.navigator_plugins then [SCRIPTS "navigator_plugins"] else []) ++
  (if c.navigator_user_agent then [SCRIPTS "navigator_user_agent"] else []) ++
  (if c.navigator_vendor then [SCRIPTS "navigator_vendor"] else []) ++
  (if c.webdriver then [SCRIPTS "webdriver"] else []) ++
  (if c.outerdimensions then [SCRIPTS "outerdimensions"] else []) ++
  (if c.webgl_vendor then [SCRIPTS "webgl_vendor"] else [])

/-! ## Script composition and the page operations (stealth.py lines 132-157) -/

/-- Python's `"\n".join` (stealth.py lines 141 and 155). -/
def joinNl : List String → String
  | [] => ""
  | [s] => s
  | s :: t :: rest => s ++ "\n" ++ joinNl (t :: rest)

/-- The `combined_script` of `stealth_sync` (stealth.py line 141). -/
def sync_combined_script (c : StealthConfig) : String :=
  joinNl c.enabled_scripts

/-- The `combined_script` of `stealth_async` (stealth.py line 155): the sync
join with the trailing marker statement appended. -/
def async_combined_script (c : StealthConfig) : String :=
  joinNl c.enabled_scripts ++ "\nconsole.log(`end`);"

/-- The observable registration state of a playwright `Page`: the scripts
registered through `page.add_init_script` and the interception-rule patterns
registered through `page.route`, each in registration order (playwright
appends on repeated registration; it never replaces). -/
structure PageState where
  init_scripts : List String := []
  routes : List String := []

/-- `page.add_init_script(script)`: appends to the page's init scripts. -/
def PageState.add_init_script (p : PageState) (script : String) : PageState :=
  { p with init_scripts := p.init_scripts ++ [script] }

/-- `page.route(pattern, handler)`: appends an interception rule. -/
def PageState.route (p : PageState) (pat : String) : PageState :=
  { p with routes := p.routes ++ [pat] }

/-- The body of `add_stealth_headers` (stealth.py lines 160-184): registers a
`page.route` interception rule on the catch-all pattern `"**/*"`.  The
function is declared `async def`, so this body runs only when the returned
coroutine object is awaited. -/
def add_stealth_headers_body (page : PageState) : PageState :=
  page.route "**/*"

/-- `stealth_sync` (stealth.py lines 132-143).  Line 139 calls
`add_stealth_headers(page)` without `await` — and `stealth_sync` is not a
coroutine, so it could not await it: the call only allocates a coroutine
object that is discarded at once, and `add_stealth_headers_body` never runs.
Only `page.add_init_script(combined_script)` (line 143) changes the page. -/
def stealth_sync (page : PageState) (config : Option StealthConfig) : PageState :=
  page.add_init_script (sync_combined_script (config.getD {}))

/-- `stealth_async` (stealth.py lines 146-157).  Line 153 likewise calls
`add_stealth_headers(page)` without `await`, so the coroutine never runs and
only the awaited `page.add_init_script` (line 157) changes the page. -/
def stealth_async (page : PageState) (config : Option StealthConfig) : PageState :=
  page.add_init_script (async_combined_script (config.getD {}))

/-! ## The header-spoofing interception rule (stealth.py lines 160-184) -/

/-- A Python header dict, viewed as the finite mapping it represents. -/
def Headers : Type := String → Option String

/-- One key-value insertion of a Python dict display (later entries win). -/
def dictInsert (h : Headers) (k v : String) : Headers :=
  fun q => if q = k then some v else h q

/-- The fifteen spoofed header entries of stealth.py lines 167-181, in source
order with the exact literal values. -/
def SPOOF_HEADERS : List (String × String) :=
  [("sec-ch-ua", "\"Chromium\";v=\"129\", \"Not=A?Brand\";v=\"8\""),
   ("sec-ch-ua-mobile", "?0"),
   ("sec-ch-ua-platform", "\"macOS\""),
   ("sec-ch-ua-form-factors", "desktop"),
   ("upgrade-insecure-requests", "1"),
   ("dnt", "1"),
   ("user-agent", "Mozilla/5.0 (Macintosh; Intel Mac OS X 10_15_7) AppleWebKit/537.36 (KHTML, like Gecko) Chrome/129.0.0.0 Safari/537.36"),
   ("accept", "\ttext/html,application/xhtml+xml,application/xml;q=0.9,image/avif,image/webp,image/apng,*/*;q=0.8,application/signed-exchange;v=b3;q=0.7"),
   ("sec-fetch-site", "cross-site"),
   ("sec-fetch-mode", "navigate"),
   ("sec-fetch-user", "?1"),
   ("sec-fetch-dest", "document"),
   ("referer", "https://www.google.com/"),
   ("accept-encoding", "gzip, deflate, br, zstd"),
   ("accept-language", "en-US,en;q=0.9")]

/-- The `headers=` argument of `route.continue_` (stealth.py lines 165-182):
the dict display `{**request.headers, "sec-ch-ua": ..., ...}`, i.e. the
request's original mapping with the fifteen spoofed entries inserted on top
in display order. -/
def forwarded_headers (request_headers : Headers) : Headers :=
  SPOOF_HEADERS.foldl (fun h kv => dictInsert h kv.1 kv.2) request_headers

/-! ## Toggle apparatus for claims that quantify over one optional toggle -/

/-- The fourteen optional patch toggles of `StealthConfig`. -/
inductive Toggle
  | chrome_app
  | chrome_csi
  | chrome_load_times
  | chrome_runtime
  | iframe_content_window
  | media_codecs
  | navigator_languages
  | navigator_permissions
  | navigator_plugins
  | navigator_user_agent
  | navigator_vendor
  | webdriver
  | outerdimensions
  | webgl_vendor
  deriving DecidableEq

/-- Reading a toggle field of a configuration. -/
def Toggle.get (c : StealthConfig) : Toggle → Bool
  | chrome_app => c.chrome_app
  | chrome_csi => c.chrome_csi
  | chrome_load_times => c.chrome_load_times
  | chrome_runtime => c.chrome_runtime
  | iframe_content_window => c.iframe_content_window
  | media_codecs => c.media_codecs
  | navigator_languages => c.navigator_languages
  | navigator_permissions => c.navigator_permissions
  | navigator_plugins => c.navigator_plugins
  | navigator_user_agent => c.navigator_user_agent
  | navigator_vendor => c.navigator_vendor
  | webdriver => c.webdriver
  | outerdimensions => c.outerdimensions
  | webgl_vendor => c.webgl_vendor

/-- Writing a toggle field of a configuration, all other fields unchanged. -/
def Toggle.set (c : StealthConfig) (b : Bool) : Toggle → StealthConfig
  | chrome_app => { c with chrome_app := b }
  | chrome_csi => { c with chrome_csi := b }
  | chrome_load_times => { c with chrome_load_times := b }
  | chrome_runtime => { c with chrome_runtime := b }
  | iframe_content_window => { c with iframe_content_window := b }
  | media_codecs => { c with media_codecs := b }
  | navigator_languages => { c with navigator_languages := b }
  | navigator_permissions => { c with navigator_permissions := b }
  | navigator_plugins => { c with navigator_plugins := b }
  | navigator_user_agent => { c with navigator_user_agent := b }
  | navigator_vendor => { c with navigator_vendor := b }
  | webdriver => { c with webdriver := b }
  | outerdimensions => { c with outerdimensions := b }
  | webgl_vendor => { c with webgl_vendor := b }

/-- The patch text a toggle controls. -/
def Toggle.patch : Toggle → String
  | chrome_app => SCRIPTS "chrome_app"
  | chrome_csi => SCRIPTS "chrome_csi"
  | chrome_load_times => SCRIPTS "chrome_load_times"
  | chrome_runtime => SCRIPTS "chrome_runtime"
  | iframe_content_window => SCRIPTS "iframe_content_window"
  | media_codecs => SCRIPTS "media_codecs"
  | navigator_languages => SCRIPTS "navigator_languages"
  | navigator_permissions => SCRIPTS "navigator_permissions"
  | navigator_plugins => SCRIPTS "navigator_plugins"
  | navigator_user_agent => SCRIPTS "navigator_user_agent"
  | navigator_vendor => SCRIPTS "navigator_vendor"
  | webdriver => SCRIPTS "webdriver"
  | outerdimensions => SCRIPTS "outerdimensions"
  | webgl_vendor => SCRIPTS "webgl_vendor"

/-! ## String helpers used by the analysis -/

/-- Boolean prefix test on character lists. -/
def isPrefixC : List Char → List Char → Bool
  | [], _ => true
  | _ :: _, [] => false
  | a :: as, b :: bs => a == b && isPrefixC as bs

/-- Whether `pat` occurs as a contiguous run inside `s` (character lists). -/
def containsSubC (pat : List Char) : List Char → Bool
  | [] => isPrefixC pat []
  | c :: t => isPrefixC pat (c :: t) || containsSubC pat t

/-- Whether the string `pat` occurs as a contiguous substring of `s`. -/
def containsSubstr (s pat : String) : Bool :=
  containsSubC pat.data s.data

/-- `joinNl` on character lists. -/
def joinC : List (List Char) → List Char
  | [] => []
  | [x] => x
  | x :: y :: r => x ++ '\n' :: joinC (y :: r)

/-- Splitting a character list at every newline; left inverse of `joinC` on
newline-free nonempty inputs. -/
def splitNlC : List Char → List (List Char)
  | [] => [[]]
  | c :: cs =>
    if c = '\n' then [] :: splitNlC cs
    else
      match splitNlC cs with
      | [] => [[c]]
      | h :: t => (c :: h) :: t

lemma splitNlC_no_nl (l : List Char) (h : '\n' ∉ l) : splitNlC l = [l] := by
  induction l with
  | nil => rfl
  | cons c cs ih =>
    have hc : c ≠ '\n' := fun hc => h (hc ▸ List.mem_cons_self c cs)
    have hcs : '\n' ∉ cs := fun hm => h (List.mem_cons_of_mem c hm)
    simp [splitNlC, hc, ih hcs]

lemma splitNlC_append (x r : List Char) (h : '\n' ∉ x) :
    splitNlC (x ++ '\n' :: r) = x :: splitNlC r := by
  induction x with
  | nil => simp [splitNlC]
  | cons c cs ih =>
    have hc : c ≠ '\n' := fun hc => h (hc ▸ List.mem_cons_self c cs)
    have hcs : '\n' ∉ cs := fun hm => h (List.mem_cons_of_mem c hm)
    simp [splitNlC, hc, ih hcs]

lemma splitNlC_joinC (l : List (List Char)) (hl : l ≠ [])
    (h : ∀ x ∈ l, '\n' ∉ x) : splitNlC (joinC l) = l := by
  induction l with
  | nil => exact absurd rfl hl
  | cons x rest ih =>
    cases rest with
    | nil => exact splitNlC_no_nl x (h x (List.mem_cons_self x []))
    | cons y r =>
      have hx : '\n' ∉ x := h x (List.mem_cons_self x _)
      have hrest : ∀ z ∈ y :: r, '\n' ∉ z := fun z hz => h z (List.mem_cons_of_mem x hz)
      rw [joinC, splitNlC_append x _ hx, ih (by simp) hrest]

lemma data_joinNl (l : List String) : (joinNl l).data = joinC (l.map String.data) := by
  induction l with
  | nil => rfl
  | cons s rest ih =>
    cases rest with
    | nil => rfl
    | cons t r =>
      show (s ++ "\n" ++ joinNl (t :: r)).data = _
      rw [String.data_append, String.data_append, ih, List.append_assoc]
      rfl

lemma joinNl_inj (l₁ l₂ : List String) (h₁ : ∀ s ∈ l₁, '\n' ∉ s.data)
    (h₂ : ∀ s ∈ l₂, '\n' ∉ s.data) (hne₁ : l₁ ≠ []) (hne₂ : l₂ ≠ [])
    (h : joinNl l₁ = joinNl l₂) : l₁ = l₂ := by
  have hdata : joinC (l₁.map String.data) = joinC (l₂.map String.data) := by
    rw [← data_joinNl, ← data_joinNl, h]
  have hsplit : l₁.map String.data = l₂.map String.data := by
    rw [← splitNlC_joinC (l₁.map String.data) (by simpa using hne₁) (by simpa using h₁),
      ← splitNlC_joinC (l₂.map String.data) (by simpa using hne₂) (by simpa using h₂), hdata]
  exact List.map_injective_iff.mpr (fun a b hab => String.ext hab) hsplit

/-- The head character of the options fragment is `c`, while every loaded
patch text starts with `/`; the options constant therefore never collides
with a patch text, whatever the configuration. -/
lemma opts_fragment_ne_patch (c : StealthConfig) (s : String)
    (hs : s.data.head? = some '/') : "const opts = " ++ opts c ≠ s := by
  intro h
  have hh : ("const opts = " ++ opts c).data.head? = some 'c' := by
    rw [String.data_append]; rfl
  rw [h, hs] at hh
  exact absurd (Option.some.inj hh) (by decide)

/-- Membership in the conditional singleton of one optional patch. -/
lemma mem_ite_singleton {x s : String} {b : Bool} :
    x ∈ (if b then [s] else []) ↔ b = true ∧ x = s := by
  cases b <;> simp

/-! ## Chunked view of the fragment sequence -/

/-- The fourteen optional toggles in the order their `if` blocks appear in
`enabled_scripts` (stealth.py lines 102-129). -/
def optionalToggles : List Toggle :=
  [.chrome_app, .chrome_csi, .chrome_load_times, .chrome_runtime,
   .iframe_content_window, .media_codecs, .navigator_languages,
   .navigator_permissions, .navigator_plugins, .navigator_user_agent,
   .navigator_vendor, .webdriver, .outerdimensions, .webgl_vendor]

lemma get_set_self (c : StealthConfig) (t : Toggle) (b : Bool) : t.get (t.set c b) = b := by
  cases t <;> rfl

lemma get_set_other (c : StealthConfig) (t u : Toggle) (b : Bool) (h : u ≠ t) :
    u.get (t.set c b) = u.get c := by
  cases t <;> cases u <;> first | rfl | exact absurd rfl h

lemma opts_set_toggle (c : StealthConfig) (t : Toggle) (b : Bool) :
    opts (t.set c b) = opts c := by
  cases t <;> rfl

lemma patch_ne_patch (t u : Toggle) (h : u ≠ t) : t.patch ≠ u.patch := by
  cases t <;> cases u <;> first | exact absurd rfl h | decide

lemma patch_head_char (t : Toggle) : t.patch.data.head? = some '/' := by
  cases t <;> rfl

lemma enabled_scripts_eq_chunks (c : StealthConfig) :
    c.enabled_scripts =
      ["const opts = " ++ opts c, SCRIPTS "utils", SCRIPTS "generate_magic_arrays"] ++
      optionalToggles.flatMap (fun t => if t.get c then [t.patch] else []) := by
  simp [StealthConfig.enabled_scripts, optionalToggles, Toggle.get, Toggle.patch]

/-- Flipping off the one list element `t` drops exactly its contribution
from a `flatMap`, keeping every other block in place. -/
lemma flatMap_single_removed (l : List Toggle) (t : Toggle)
    (f g : Toggle → List String) (pt : String)
    (hmem : t ∈ l) (hnd : l.Nodup)
    (hg : ∀ u ∈ l, u ≠ t → g u = f u)
    (hft : f t = [pt]) (hgt : g t = [])
    (hother : ∀ u ∈ l, u ≠ t → pt ∉ f u) :
    ∃ A B, l.flatMap f = A ++ pt :: B ∧ l.flatMap g = A ++ B ∧ pt ∉ A ∧ pt ∉ B := by
  induction l with
  | nil => cases hmem
  | cons x rest ih =>
    rcases List.mem_cons.mp hmem with he | hm
    · subst he
      have htrest : t ∉ rest := (List.nodup_cons.mp hnd).1
      have hgf : rest.flatMap g = rest.flatMap f := by
        apply List.flatMap_congr
        intro u hu
        exact hg u (List.mem_cons_of_mem _ hu) fun he' => htrest (he' ▸ hu)
      refine ⟨[], rest.flatMap f, ?_, ?_, by simp, ?_⟩
      · rw [List.flatMap_cons, hft]
        rfl
      · rw [List.flatMap_cons, hgt, hgf]
      · intro hp
        rcases List.mem_flatMap.mp hp with ⟨u, hu, hpu⟩
        exact hother u (List.mem_cons_of_mem _ hu) (fun he' => htrest (he' ▸ hu)) hpu
    · have hxt : x ≠ t := fun he' => (List.nodup_cons.mp hnd).1 (he' ▸ hm)
      obtain ⟨A, B, h1, h2, h3, h4⟩ := ih hm (List.nodup_cons.mp hnd).2
        (fun u hu => hg u (List.mem_cons_of_mem _ hu))
        (fun u hu => hother u (List.mem_cons_of_mem _ hu))
      refine ⟨f x ++ A, B, ?_, ?_, ?_, h4⟩
      · rw [List.flatMap_cons, h1, List.append_assoc]
      · rw [List.flatMap_cons, hg x (List.mem_cons_self _ _) hxt, h2, List.append_assoc]
      · intro hp
        rcases List.mem_append.mp hp with hp | hp
        · exact hother x (List.mem_cons_self _ _) hxt hp
        · exact h3 hp

/-! ## Association-list facts for the header overlay and the registry -/

lemma foldl_dictInsert_not_mem (h : Headers) (l : List (String × String)) (k : String)
    (hk : ∀ kv ∈ l, k ≠ kv.1) :
    l.foldl (fun h kv => dictInsert h kv.1 kv.2) h k = h k := by
  induction l generalizing h with
  | nil => rfl
  | cons kv rest ih =>
    rw [List.foldl_cons, ih _ fun kv' h' => hk kv' (List.mem_cons_of_mem kv h')]
    simp [dictInsert, hk kv (List.mem_cons_self kv rest)]

/-- A left fold of dict insertions realises first-key lookup when the
inserted keys are pairwise distinct. -/
lemma foldl_dictInsert_lookup (l : List (String × String)) (h : Headers) (k : String)
    (hnd : (l.map Prod.fst).Nodup) :
    l.foldl (fun h kv => dictInsert h kv.1 kv.2) h k =
      match l.lookup k with
      | some v => some v
      | none => h k := by
  induction l generalizing h with
  | nil => rfl
  | cons kv rest ih =>
    rw [List.foldl_cons]
    rw [List.map_cons] at hnd
    rcases List.nodup_cons.mp hnd with ⟨hknotin, hndrest⟩
    by_cases hk : k = kv.1
    · have hnot : ∀ kv' ∈ rest, k ≠ kv'.1 := by
        intro kv' hm he
        apply hknotin
        rw [hk.symm.trans he]
        exact List.mem_map_of_mem Prod.fst hm
      rw [foldl_dictInsert_not_mem _ _ _ hnot]
      simp [List.lookup, dictInsert, hk]
    · rw [ih _ hndrest]
      have hbeq : (k == kv.1) = false := beq_eq_false_iff_ne.mpr hk
      cases hl : rest.lookup k with
      | some v => simp [List.lookup, hbeq, hl]
      | none => simp [List.lookup, hbeq, hl, dictInsert, hk]

lemma loadScripts_none_iff (fs : FileSystem) (l : List (String × String)) :
    loadScripts fs l = none ↔ ∃ kv ∈ l, fs kv.2 = none := by
  induction l with
  | nil => simp [loadScripts]
  | cons kv rest ih =>
    obtain ⟨key, file⟩ := kv
    cases hf : fs file with
    | none =>
      constructor
      · intro _
        exact ⟨(key, file), List.mem_cons_self _ _, hf⟩
      · intro _
        simp [loadScripts, hf]
    | some s =>
      cases hr : loadScripts fs rest with
      | none =>
        constructor
        · intro _
          obtain ⟨kv', hm, hn⟩ := ih.mp hr
          exact ⟨kv', List.mem_cons_of_mem _ hm, hn⟩
        · intro _
          simp [loadScripts, hf, hr]
      | some r =>
        constructor
        · intro habs
          simp [loadScripts, hf, hr] at habs
        · rintro ⟨kv', hm, hn⟩
          exfalso
          rcases List.mem_cons.mp hm with he | hm'
          · rw [he] at hn
            exact absurd hn (by simp [hf])
          · rw [ih.mpr ⟨kv', hm', hn⟩] at hr
            cases hr

lemma loadScripts_some (fs : FileSystem) (l r : List (String × String))
    (h : loadScripts fs l = some r) :
    r.map Prod.fst = l.map Prod.fst ∧
    ∀ kv ∈ l, ∃ s, fs kv.2 = some s ∧ (kv.1, s) ∈ r := by
  induction l generalizing r with
  | nil =>
    simp only [loadScripts, Option.some.injEq] at h
    subst h; simp
  | cons kv rest ih =>
    obtain ⟨key, file⟩ := kv
    cases hf : fs file with
    | none => simp [loadScripts, hf] at h
    | some s =>
      cases hr : loadScripts fs rest with
      | none => simp [loadScripts, hf, hr] at h
      | some r' =>
        simp only [loadScripts, hf, hr, Option.some.injEq] at h
        obtain ⟨h1, h2⟩ := ih r' hr
        subst h
        refine ⟨by simp [h1], ?_⟩
        intro kv' hm
        rcases List.mem_cons.mp hm with he | hm'
        · subst he; exact ⟨s, hf, List.mem_cons_self _ _⟩
        · obtain ⟨s', hs', hmem⟩ := h2 kv' hm'
          exact ⟨s', hs', List.mem_cons_of_mem _ hmem⟩

/-! ## Claim theorems -/

/-- C1: For the default configuration, `enabled_scripts` yields the options
constant as its first element, the `utils` patch second, the
`generate_magic_arrays` patch third, followed by exactly the fourteen
optional patch texts in the fixed order chrome_app, chrome_csi,
chrome_load_times, chrome_runtime, iframe_content_window, media_codecs,
navigator_languages, navigator_permissions, navigator_plugins,
navigator_user_agent, navigator_vendor, webdriver, outerdimensions,
webgl_vendor, all present. -/
theorem default_enabled_scripts_order :
    ({} : StealthConfig).enabled_scripts =
      ["const opts = " ++ opts {}, SCRIPTS "utils", SCRIPTS "generate_magic_arrays",
       SCRIPTS "chrome_app", SCRIPTS "chrome_csi", SCRIPTS "chrome_load_times",
       SCRIPTS "chrome_runtime", SCRIPTS "iframe_content_window", SCRIPTS "media_codecs",
       SCRIPTS "navigator_languages", SCRIPTS "navigator_permissions",
       SCRIPTS "navigator_plugins", SCRIPTS "navigator_user_agent",
       SCRIPTS "navigator_vendor", SCRIPTS "webdriver", SCRIPTS "outerdimensions",
       SCRIPTS "webgl_vendor"] := rfl

/-- C2: contrary to the claim, neither `stealth_sync` nor `stealth_async`
installs the header spoofer's interception rule: both call the `async def`
`add_stealth_headers` without awaiting the coroutine (stealth.py lines 139
and 153), so the `page.route` registration in its body never takes effect —
the page's route list stays empty, while the awaited body alone would have
registered the catch-all rule. -/
theorem stealth_apply_installs_no_route :
    (stealth_sync {} (some {})).routes = [] ∧
    (stealth_async {} (some {})).routes = [] ∧
    (stealth_sync {} none).routes = [] ∧
    (add_stealth_headers_body {}).routes = ["**/*"] :=
  ⟨rfl, rfl, rfl, rfl⟩

/-- C5 counterexample: the newline-join is not injective on distinct fragment
sequences — swapping the two non-identical fragments `"a"` and `"a\na"`
leaves the composed string unchanged, because a fragment may itself contain
the separator. -/
theorem compose_swap_counterexample :
    joinNl ["a", "a\na"] = joinNl ["a\na", "a"] ∧ ("a" : String) ≠ "a\na" :=
  ⟨rfl, by decide⟩

/-- C5 amended: on fragment sequences whose fragments contain no newline
character, the composition is order-preserving and injective under swaps —
swapping two non-identical fragments changes the composed string. -/
theorem compose_swap_changes_output_of_newline_free
    (A B C : List String) (a b : String)
    (hfree : ∀ s ∈ A ++ a :: B ++ b :: C, '\n' ∉ s.data)
    (hab : a ≠ b) :
    joinNl (A ++ a :: B ++ b :: C) ≠ joinNl (A ++ b :: B ++ a :: C) := by
  intro h
  have hfree' : ∀ s ∈ A ++ b :: B ++ a :: C, '\n' ∉ s.data := by
    intro s hs
    apply hfree
    simp only [List.mem_append, List.mem_cons] at hs ⊢
    tauto
  have hlists := joinNl_inj _ _ hfree hfree' (by simp) (by simp) h
  rw [List.append_assoc, List.append_assoc] at hlists
  have hcons := List.append_cancel_left hlists
  exact hab (List.head_eq_of_cons_eq hcons)

/-- Witness for the amended C5 theorem at a concrete swap. -/
theorem compose_swap_changes_output_witness :
    joinNl ["x", "y"] ≠ joinNl ["y", "x"] :=
  compose_swap_changes_output_of_newline_free [] [] [] "x" "y" (by decide) (by decide)

set_option maxRecDepth 40000 in
/-- C6 counterexample: the synchronously composed script is claimed never to
contain the trailing marker statement, but the configuration's option
strings flow verbatim into the options constant — with
`vendor = "console.log(`end`);"` the synchronous composition contains the
marker text. -/
theorem sync_script_can_contain_marker :
    containsSubstr (sync_combined_script { vendor := "console.log(`end`);" })
      "console.log(`end`);" = true := by decide

set_option maxRecDepth 40000 in
/-- C6 amended: for every configuration the asynchronously composed script
equals the synchronously composed script with the one fixed trailing marker
statement appended, and for the default configuration the synchronously
composed script does not contain the marker. -/
theorem async_script_is_sync_plus_marker :
    (∀ c : StealthConfig,
      async_combined_script c = sync_combined_script c ++ "\nconsole.log(`end`);") ∧
    containsSubstr (sync_combined_script {}) "console.log(`end`);" = false :=
  ⟨fun _ => rfl, by decide⟩

/-- C3: for every original header mapping `H`, the forwarded mapping equals
`H` updated with every key of the fixed 15-key spoof set — each spoofed key
takes the overlay's constant value regardless of `H`'s value for it, every
key of `H` outside the spoof set keeps its original value, and applying the
overlay twice equals applying it once. -/
theorem forwarded_headers_overlay (H : Headers) :
    SPOOF_HEADERS.length = 15 ∧
    (∀ k v, SPOOF_HEADERS.lookup k = some v → forwarded_headers H k = some v) ∧
    (∀ k, SPOOF_HEADERS.lookup k = none → forwarded_headers H k = H k) ∧
    forwarded_headers (forwarded_headers H) = forwarded_headers H := by
  have hnd : (SPOOF_HEADERS.map Prod.fst).Nodup := by decide
  have hmain : ∀ (G : Headers) (k : String), forwarded_headers G k =
      match SPOOF_HEADERS.lookup k with
      | some v => some v
      | none => G k :=
    fun G k => foldl_dictInsert_lookup SPOOF_HEADERS G k hnd
  refine ⟨rfl, fun k v hkv => ?_, fun k hk => ?_, funext fun k => ?_⟩
  · rw [hmain, hkv]
  · rw [hmain, hk]
  · rw [hmain (forwarded_headers H) k]
    cases hl : SPOOF_HEADERS.lookup k with
    | some v => rw [hmain H k, hl]
    | none => rfl

/-- Witness for the C3 theorem: on the empty header mapping, the overlay
pins `dnt` to `"1"`. -/
theorem forwarded_headers_overlay_witness :
    forwarded_headers (fun _ => none) "dnt" = some "1" :=
  (forwarded_headers_overlay (fun _ => none)).2.1 "dnt" "1" (by decide)

/-- C8: registry loading is all-or-nothing — construction fails (with no
partial registry) exactly when some named patch source file is missing or
unreadable, and on success the registry holds an entry for every known patch
name, keyed in registry order, with that file's contents. -/
theorem load_SCRIPTS_all_or_nothing (fs : FileSystem) :
    (load_SCRIPTS fs = none ↔ ∃ kv ∈ PATCH_FILES, fs kv.2 = none) ∧
    ∀ r, load_SCRIPTS fs = some r →
      r.map Prod.fst = PATCH_FILES.map Prod.fst ∧
      ∀ kv ∈ PATCH_FILES, ∃ s, fs kv.2 = some s ∧ (kv.1, s) ∈ r :=
  ⟨loadScripts_none_iff fs PATCH_FILES, fun r h => loadScripts_some fs PATCH_FILES r h⟩

/-- Witness for the C8 theorem: on a file system with no readable files,
loading produces no registry at all. -/
theorem load_SCRIPTS_all_or_nothing_witness :
    load_SCRIPTS (fun _ => none) = none :=
  (load_SCRIPTS_all_or_nothing (fun _ => none)).1.mpr
    ⟨("chrome_csi", "chrome.csi.js"), by decide, rfl⟩

/-- C7: the fragment sequence is a deterministic pure function of the
configuration's option values — two configurations that agree on every
field produce identical sequences (the embedding is purely functional, so
there is no hidden state or randomness to depend on). -/
theorem enabled_scripts_pure_function (c₁ c₂ : StealthConfig)
    (h1 : c₁.webdriver = c₂.webdriver) (h2 : c₁.webgl_vendor = c₂.webgl_vendor)
    (h3 : c₁.chrome_app = c₂.chrome_app) (h4 : c₁.chrome_csi = c₂.chrome_csi)
    (h5 : c₁.chrome_load_times = c₂.chrome_load_times)
    (h6 : c₁.chrome_runtime = c₂.chrome_runtime)
    (h7 : c₁.iframe_content_window = c₂.iframe_content_window)
    (h8 : c₁.media_codecs = c₂.media_codecs)
    (h9 : c₁.navigator_hardware_concurrency = c₂.navigator_hardware_concurrency)
    (h10 : c₁.navigator_languages = c₂.navigator_languages)
    (h11 : c₁.navigator_permissions = c₂.navigator_permissions)
    (h12 : c₁.navigator_plugins = c₂.navigator_plugins)
    (h13 : c₁.navigator_user_agent = c₂.navigator_user_agent)
    (h14 : c₁.navigator_vendor = c₂.navigator_vendor)
    (h15 : c₁.outerdimensions = c₂.outerdimensions)
    (h16 : c₁.vendor = c₂.vendor) (h17 : c₁.renderer = c₂.renderer)
    (h18 : c₁.nav_vendor = c₂.nav_vendor) (h19 : c₁.nav_user_agent = c₂.nav_user_agent)
    (h20 : c₁.nav_platform = c₂.nav_platform) (h21 : c₁.languages = c₂.languages)
    (h22 : c₁.runOnInsecureOrigins = c₂.runOnInsecureOrigins) :
    c₁.enabled_scripts = c₂.enabled_scripts := by
  cases c₁; cases c₂; simp only at *; subst_vars; rfl

/-- Witness for the C7 theorem at the default configuration. -/
theorem enabled_scripts_pure_function_witness :
    ({} : StealthConfig).enabled_scripts = ({} : StealthConfig).enabled_scripts :=
  enabled_scripts_pure_function {} {} rfl rfl rfl rfl rfl rfl rfl rfl rfl rfl rfl
    rfl rfl rfl rfl rfl rfl rfl rfl rfl rfl rfl

/-- C4: disabling exactly one enabled optional toggle, all other options
held equal, yields the original fragment sequence with exactly that toggle's
patch text removed — the remaining fragments are all present, in unchanged
relative order, and the removed text occurs nowhere else in the sequence. -/
theorem disable_one_toggle_removes_one_fragment (c : StealthConfig) (t : Toggle)
    (h : t.get c = true) :
    ∃ A B, c.enabled_scripts = A ++ t.patch :: B ∧
      (t.set c false).enabled_scripts = A ++ B ∧ t.patch ∉ A ∧ t.patch ∉ B := by
  obtain ⟨A, B, h1, h2, h3, h4⟩ :=
    flatMap_single_removed optionalToggles t
      (fun u => if u.get c then [u.patch] else [])
      (fun u => if u.get (t.set c false) then [u.patch] else [])
      t.patch
      (by cases t <;> simp [optionalToggles])
      (by decide)
      (fun u _ hu => by simp only [get_set_other c t u false hu])
      (by simp [h])
      (by simp [get_set_self])
      (fun u _ hu => by
        simp only [mem_ite_singleton]
        rintro ⟨-, hp⟩
        exact patch_ne_patch t u hu hp)
  refine ⟨["const opts = " ++ opts c, SCRIPTS "utils", SCRIPTS "generate_magic_arrays"] ++ A,
    B, ?_, ?_, ?_, h4⟩
  · rw [enabled_scripts_eq_chunks, h1, List.append_assoc]
  · rw [enabled_scripts_eq_chunks, h2, List.append_assoc, opts_set_toggle]
  · intro hp
    rcases List.mem_append.mp hp with hp | hp
    · simp only [List.mem_cons, List.not_mem_nil, or_false] at hp
      rcases hp with hp | hp | hp
      · exact opts_fragment_ne_patch c t.patch (patch_head_char t) hp.symm
      · exact absurd hp (by cases t <;> decide)
      · exact absurd hp (by cases t <;> decide)
    · exact h3 hp

/-- Witness for the C4 theorem: disabling `chrome_app` on the default
configuration. -/
theorem disable_one_toggle_removes_one_fragment_witness :
    Toggle.chrome_app.get {} = true ∧
    ∃ A B, ({} : StealthConfig).enabled_scripts = A ++ Toggle.chrome_app.patch :: B ∧
      (Toggle.chrome_app.set {} false).enabled_scripts = A ++ B ∧
      Toggle.chrome_app.patch ∉ A ∧ Toggle.chrome_app.patch ∉ B :=
  ⟨rfl, disable_one_toggle_removes_one_fragment {} Toggle.chrome_app rfl⟩

/-- C10: the `navigator_hardware_concurrency` option has no effect on the
output — changing it (all else equal) leaves both the fragment sequence and
the options constant identical, and the hardware-concurrency patch text
loaded into the registry is never an element of any configuration's fragment
sequence. -/
theorem navigator_hardware_concurrency_unused (c : StealthConfig) (n : Int) :
    ({ c with navigator_hardware_concurrency := n } : StealthConfig).enabled_scripts =
      c.enabled_scripts ∧
    opts { c with navigator_hardware_concurrency := n } = opts c ∧
    SCRIPTS "navigator_hardware_concurrency" ∉ c.enabled_scripts := by
  refine ⟨rfl, rfl, fun hmem => ?_⟩
  rw [enabled_scripts_eq_chunks] at hmem
  rcases List.mem_append.mp hmem with hp | hp
  · simp only [List.mem_cons, List.not_mem_nil, or_false] at hp
    rcases hp with hp | hp | hp
    · exact opts_fragment_ne_patch c _ (by rfl) hp.symm
    · exact absurd hp (by decide)
    · exact absurd hp (by decide)
  · rcases List.mem_flatMap.mp hp with ⟨u, -, hpu⟩
    rcases mem_ite_singleton.mp hpu with ⟨-, hp⟩
    exact absurd hp (by cases u <;> decide)

/-- C9: applying the stealth operation twice on the same page registers both
composed scripts — the second registration appends to, and does not replace,
the first; this holds for the sync and the async entry point alike. -/
theorem apply_twice_appends_both_scripts (p : PageState) (c₁ c₂ : StealthConfig) :
    (stealth_sync (stealth_sync p (some c₁)) (some c₂)).init_scripts =
      p.init_scripts ++ [sync_combined_script c₁, sync_combined_script c₂] ∧
    (stealth_async (stealth_async p (some c₁)) (some c₂)).init_scripts =
      p.init_scripts ++ [async_combined_script c₁, async_combined_script c₂] := by
  constructor <;> simp [stealth_sync, stealth_async, PageState.add_init_script]

end PlaywrightStealth
